import Mathlib

/-!
Shallow embedding of the RStudio TeX engine module
(`src/cpp/session/modules/SessionTexEngine.cpp`): composition of the
TEXINPUTS / BIBINPUTS / BSTINPUTS environment variables, the
texi2dvi argument builder, the invocation plan constructed by
`executeTexToPdf`, and the `rs_texToPdf` orchestrator.

Platform-conditional compilation (`#ifdef _WIN32`) is embedded as an
explicit `Platform` parameter; process-wide environment access is
embedded as an explicit snapshot (an association list), and the
filesystem is embedded as a path-existence predicate.  Helper routines
of the repository that are not part of the excerpt (FilePath methods,
`core::system` environment helpers, the process supervisor) are
modelled from the specification and marked as such in their doc
comments.
-/

set_option autoImplicit false

namespace RStudioTex

/-- The two platform families the source distinguishes via `#ifdef _WIN32`. -/
inductive Platform where
  | windows
  | posix
deriving DecidableEq, Repr

/-- Modelled from the spec: search-path variables are "colon/semicolon-delimited"
(`core::system::addToPath`'s separator is not part of the excerpt). -/
def pathListSeparator : Platform → String
  | Platform.windows => ";"
  | Platform.posix => ":"

/-- Modelled from the spec: `getEnvironmentVariable(name) -> value|empty`
(`core::system::getenv` is not part of the excerpt).  The environment is a
snapshot association list; the first binding of a name wins, absent names
read as the empty string. -/
def getenvL : List (String × String) → String → String
  | [], _ => ""
  | p :: rest, name => if p.1 = name then p.2 else getenvL rest name

/-- Modelled from the spec: `core::system::setenv` on an environment snapshot
(not part of the excerpt); overlay entries win on name collision: the first
existing binding of the name is overwritten, otherwise the binding is appended. -/
def setenvL : List (String × String) → String → String → List (String × String)
  | [], name, value => [(name, value)]
  | p :: rest, name, value =>
    if p.1 = name then (name, value) :: rest else p :: setenvL rest name value

/-- Modelled from the spec: `core::system::addToPath` (not part of the excerpt)
appends an entry to a delimiter-joined search path. -/
def addToPath (p : Platform) (value entry : String) : String :=
  if value = "" then entry else value ++ pathListSeparator p ++ entry

/-- Modelled from the spec: `encodeForSystem(text) -> platformText`
(`string_utils::utf8ToSystem`, not part of the excerpt) is a text-encoding
conversion; on the string embedding it is the identity. -/
def utf8ToSystem (s : String) : String := s

/-- Modelled from the spec: `FilePath::complete` (not part of the excerpt)
joins a relative child onto a path. -/
def completePath (p c : String) : String := p ++ "/" ++ c

/-- Modelled from the spec: `FilePath::childPath` (not part of the excerpt)
joins a relative child onto a path. -/
def childPath (p c : String) : String := p ++ "/" ++ c

/-- One character of backslash-to-forward-slash normalization
(`boost::algorithm::replace_all(value, "\\", "/")` on the character list). -/
def replaceBackslashesL : List Char → List Char
  | [] => []
  | c :: rest => (if c = '\\' then '/' else c) :: replaceBackslashesL rest

/-- `boost::algorithm::replace_all(value, "\\", "/")`. -/
def replaceBackslashes (s : String) : String := String.mk (replaceBackslashesL s.data)

/-- Whether a character list holds a backslash. -/
def hasBackslashL : List Char → Bool
  | [] => false
  | c :: rest => c = '\\' || hasBackslashL rest

/-- Whether a string holds a backslash character. -/
def hasBackslash (s : String) : Bool := hasBackslashL s.data

/-- Leading-match test on character lists (`std::string::find` helper). -/
def matchesAt : List Char → List Char → Bool
  | [], _ => true
  | _ :: _, [] => false
  | a :: as, b :: bs => a = b && matchesAt as bs

/-- Substring search on character lists (`std::string::find(...) != npos`). -/
def hasSubstringL (pat : List Char) : List Char → Bool
  | [] => matchesAt pat []
  | c :: rest => matchesAt pat (c :: rest) || hasSubstringL pat rest

/-- `s.find(pat) != std::string::npos`. -/
def hasSubstring (s pat : String) : Bool := hasSubstringL pat.data s.data

/-- Modelled from the spec: the last path component (`FilePath::filename`,
not part of the excerpt). -/
def filenameOf (p : String) : String :=
  String.mk (p.data.foldl (fun acc c => if c = '/' then [] else acc ++ [c]) [])

/-- Modelled from the spec: the containing directory (`FilePath::parent`,
not part of the excerpt). -/
def parentOf (p : String) : String :=
  String.mk (p.data.take (p.data.length - (filenameOf p).data.length - 1))

/-- The ambient state the module reads: the result of `R.home("share")`
(an `Error` or a path), path existence on disk, and the environment
snapshot. -/
structure SystemState where
  rHomeShare : Except String String
  pathExists : String → Bool
  env : List (String × String)

/-- `struct RTexmfPaths` (SessionTexEngine.cpp lines 50-57). -/
structure RTexmfPaths where
  texInputsPath : String
  bibInputsPath : String
  bstInputsPath : String
deriving DecidableEq, Repr

/-- `RTexmfPaths::empty` (line 52): only `texInputsPath` is consulted. -/
def RTexmfPaths.empty (t : RTexmfPaths) : Bool := t.texInputsPath = ""

/-- `rTexmfPaths()` (lines 59-92): locate the R `share/texmf` tree; on any
failure (R call error, missing share directory, missing texmf directory)
log and return the default-constructed (empty) struct. -/
def rTexmfPaths (s : SystemState) : RTexmfPaths :=
  match s.rHomeShare with
  | Except.error _ => ⟨"", "", ""⟩
  | Except.ok rHomeShare =>
    if s.pathExists rHomeShare then
      let rTexmfPath := completePath rHomeShare "texmf"
      if s.pathExists rTexmfPath then
        ⟨childPath rTexmfPath "tex/latex",
         childPath rTexmfPath "bibtex/bib",
         childPath rTexmfPath "bibtex/bst"⟩
      else ⟨"", "", ""⟩
    else ⟨"", "", ""⟩

/-- `inputsEnvVar(name, extraPath, ensureForwardSlashes)` (lines 97-117):
ambient value (or "."), optional backslash normalization on Windows,
append the extra path, append a trailing empty segment. -/
def inputsEnvVar (p : Platform) (env : List (String × String))
    (name : String) (extraPath : String) (ensureForwardSlashes : Bool) :
    String × String :=
  let value := getenvL env name
  let value := if value = "" then "." else value
  let value :=
    if p = Platform.windows ∧ ensureForwardSlashes then replaceBackslashes value
    else value
  let sysPath := utf8ToSystem extraPath
  let value := addToPath p value sysPath
  let value := addToPath p value ""
  (name, value)

/-- `pdfLatexEnvVar()` (lines 119-132): the PDFLATEX override pointing at
the rstudio-pdflatex wrapper script, `.cmd` on Windows and `.sh` otherwise.
The tex-scripts directory comes from `session::options()` and is a
parameter here. -/
def pdfLatexEnvVar (p : Platform) (texScriptsPath : String) : String × String :=
  let kScriptEx := if p = Platform.windows then ".cmd" else ".sh"
  let pdfLatexPath := completePath texScriptsPath ("rstudio-pdflatex" ++ kScriptEx)
  ("PDFLATEX", utf8ToSystem pdfLatexPath)

/-- `inputsEnvironmentVars()` (lines 137-154): TEXINPUTS, BIBINPUTS and
BSTINPUTS, or the empty list when the texmf tree was not found. -/
def inputsEnvironmentVars (p : Platform) (s : SystemState) :
    List (String × String) :=
  let texmfPaths := rTexmfPaths s
  if texmfPaths.empty then []
  else
    [inputsEnvVar p s.env "TEXINPUTS" texmfPaths.texInputsPath true,
     inputsEnvVar p s.env "BIBINPUTS" texmfPaths.bibInputsPath false,
     inputsEnvVar p s.env "BSTINPUTS" texmfPaths.bstInputsPath false]

/-- `texi2dviEnvironmentVars(...)` (lines 156-175): the inputs variables,
on posix also TEXINDY=false and LC_COLLATE=C, and finally PDFLATEX.  The
probe-output argument is unnamed and unused in the source. -/
def texi2dviEnvironmentVars (p : Platform) (s : SystemState)
    (texScriptsPath : String) (_texVersionInfo : String) :
    List (String × String) :=
  let envVars := inputsEnvironmentVars p s
  let envVars :=
    if p = Platform.windows then envVars
    else envVars ++ [("TEXINDY", "false"), ("LC_COLLATE", "C")]
  envVars ++ [pdfLatexEnvVar p texScriptsPath]

/-- `texi2dviShellArgs(texVersionInfo)` (lines 177-211): always `--pdf`
and `--quiet`; on Windows with MiKTeX detected in the probe output, and a
non-empty texmf tree, additionally `-I` for the tex and bst input paths
(backslash-normalized), never for the bib path. -/
def texi2dviShellArgs (p : Platform) (s : SystemState)
    (texVersionInfo : String) : List String :=
  let args := ["--pdf", "--quiet"]
  if p = Platform.windows ∧ hasSubstring texVersionInfo "MiKTeX" then
    let texmfPaths := rTexmfPaths s
    if texmfPaths.empty then args
    else
      args ++
        ["-I", replaceBackslashes (utf8ToSystem texmfPaths.texInputsPath),
         "-I", replaceBackslashes (utf8ToSystem texmfPaths.bstInputsPath)]
  else args

/-- The invocation plan handed to the process supervisor
(`core::system::ProcessOptions` plus program and arguments). -/
structure ProcessInvocation where
  program : String
  args : List String
  environment : List (String × String)
  workingDir : String
  terminateChildren : Bool
deriving DecidableEq, Repr

/-- `executeTexToPdf(...)` (lines 213-249): ambient environment snapshot
merged with the overlay (overlay wins), builder arguments followed by the
target's filename, working directory set to the target's parent,
`terminateChildren` set. -/
def executeTexToPdf (ambientEnv : List (String × String))
    (texProgramPath : String) (envVars : List (String × String))
    (args : List String) (texFilePath : String) : ProcessInvocation :=
  let env := envVars.foldl (fun e v => setenvL e v.1 v.2) ambientEnv
  { program := utf8ToSystem texProgramPath
    args := args ++ [filenameOf texFilePath]
    environment := env
    workingDir := parentOf texFilePath
    terminateChildren := true }

/-- Modelled from the spec: the ProcessRunner
(`module_context::processSupervisor().runProgram`, not part of the excerpt)
terminates all descendant processes on stop exactly when the invocation
requests child termination; otherwise descendants survive. -/
def survivingDescendantsAfterStop (inv : ProcessInvocation)
    (liveDescendants : Nat) : Nat :=
  if inv.terminateChildren then 0 else liveDescendants

/-- Outcome of the synchronous version probe (`core::system::runProgram` on
`texi2dvi --version`): a spawn error with its summary, or an exit with
status and captured streams. -/
inductive ProbeOutcome where
  | spawnError (summary : String)
  | exited (exitStatus : Nat) (stdOut stdErr : String)
deriving DecidableEq, Repr

/-- The value `rs_texToPdf` returns to R: always `R_NilValue`. -/
inductive SEXPVal where
  | rNilValue
deriving DecidableEq, Repr

/-- The ambient world `rs_texToPdf` runs against: platform, system state,
tex-scripts directory, path aliasing resolution, the result of
`findProgram("texi2dvi")` (empty when not found), the probe outcome, and
the launch error of the compile process (none on successful launch). -/
structure World where
  platform : Platform
  sys : SystemState
  texScriptsPath : String
  resolvePath : String → String
  findProgramResult : String
  probe : ProbeOutcome
  launchError : Option String

/-- Observable trace of one `rs_texToPdf` call: the error lines written to
the console sink, the composed environment overlay and argument list (none
when the corresponding builder was never invoked), and the launched
invocation plan (none when the compile process was never launched). -/
structure TexToPdfTrace where
  errorOutput : List String
  composedEnvVars : Option (List (String × String))
  composedArgs : Option (List String)
  launched : Option ProcessInvocation

/-- `rs_texToPdf(filePathSEXP)` (lines 252-293): resolve the target, find
texi2dvi (else report), probe its version (spawn error or non-zero exit
reports and stops), then compose environment and arguments and launch,
reporting a launch error; always returns `R_NilValue`. -/
def rs_texToPdf (w : World) (filePathArg : String) : TexToPdfTrace × SEXPVal :=
  let texFilePath := w.resolvePath filePathArg
  if w.findProgramResult = "" then
    (⟨["can't find texi2dvi\n"], none, none, none⟩, SEXPVal.rNilValue)
  else
    match w.probe with
    | ProbeOutcome.spawnError summary =>
      (⟨[summary ++ "\n"], none, none, none⟩, SEXPVal.rNilValue)
    | ProbeOutcome.exited exitStatus stdOut stdErr =>
      if exitStatus ≠ 0 then
        (⟨[stdErr], none, none, none⟩, SEXPVal.rNilValue)
      else
        let envVars := texi2dviEnvironmentVars w.platform w.sys w.texScriptsPath stdOut
        let args := texi2dviShellArgs w.platform w.sys stdOut
        let inv := executeTexToPdf w.sys.env w.findProgramResult envVars args texFilePath
        match w.launchError with
        | some summary =>
          (⟨[summary ++ "\n"], some envVars, some args, some inv⟩, SEXPVal.rNilValue)
        | none =>
          (⟨[], some envVars, some args, some inv⟩, SEXPVal.rNilValue)

end RStudioTex

namespace RStudioTex

/-! ### Helper lemmas about the embedded string operations -/

lemma append_ne_empty_left (a b : String) (h : a ≠ "") : a ++ b ≠ "" := by
  intro hc
  apply h
  have hd := congrArg String.data hc
  rw [String.data_append] at hd
  exact String.ext_iff.mpr (List.append_eq_nil.mp hd).1

lemma append_ne_empty_right (a b : String) (h : b ≠ "") : a ++ b ≠ "" := by
  intro hc
  apply h
  have hd := congrArg String.data hc
  rw [String.data_append] at hd
  exact String.ext_iff.mpr (List.append_eq_nil.mp hd).2

lemma replaceBackslashesL_length (l : List Char) :
    (replaceBackslashesL l).length = l.length := by
  induction l with
  | nil => rfl
  | cons c rest ih => simp [replaceBackslashesL, ih]

lemma replaceBackslashes_ne_empty (s : String) (h : s ≠ "") :
    replaceBackslashes s ≠ "" := by
  intro hc
  apply h
  have hlen := congrArg (fun t => t.data.length) hc
  simp only [replaceBackslashes, replaceBackslashesL_length] at hlen
  exact String.ext_iff.mpr (List.length_eq_zero.mp hlen)

lemma hasBackslashL_append (l m : List Char) :
    hasBackslashL (l ++ m) = (hasBackslashL l || hasBackslashL m) := by
  induction l with
  | nil => rfl
  | cons c rest ih => simp [hasBackslashL, ih, Bool.or_assoc]

lemma hasBackslash_append (a b : String) :
    hasBackslash (a ++ b) = (hasBackslash a || hasBackslash b) := by
  simp [hasBackslash, String.data_append, hasBackslashL_append]

lemma hasBackslashL_replaceBackslashesL (l : List Char) :
    hasBackslashL (replaceBackslashesL l) = false := by
  induction l with
  | nil => rfl
  | cons c rest ih =>
    by_cases hc : c = '\\'
    · simp [replaceBackslashesL, hasBackslashL, hc, ih]
    · simp [replaceBackslashesL, hasBackslashL, hc, ih]

lemma hasBackslash_replaceBackslashes (s : String) :
    hasBackslash (replaceBackslashes s) = false := by
  simp [hasBackslash, replaceBackslashes, hasBackslashL_replaceBackslashesL]

/-! ### Helper lemmas about the environment snapshot operations -/

lemma getenvL_setenvL_same (e : List (String × String)) (n v : String) :
    getenvL (setenvL e n v) n = v := by
  induction e with
  | nil => simp [setenvL, getenvL]
  | cons p rest ih =>
    by_cases h : p.1 = n
    · simp [setenvL, getenvL, h]
    · simp [setenvL, getenvL, h, ih]

lemma getenvL_setenvL_other (e : List (String × String)) (n v m : String)
    (h : m ≠ n) : getenvL (setenvL e n v) m = getenvL e m := by
  induction e with
  | nil => simp [setenvL, getenvL, Ne.symm h]
  | cons p rest ih =>
    by_cases hp : p.1 = n
    · have hpm : p.1 ≠ m := by rw [hp]; exact Ne.symm h
      simp [setenvL, getenvL, hp, Ne.symm h, hpm]
    · simp [setenvL, getenvL, hp, ih]

lemma getenvL_foldl_setenvL_of_not_mem (m : String) :
    ∀ (l : List (String × String)), (∀ q ∈ l, q.1 ≠ m) →
    ∀ init, getenvL (l.foldl (fun e q => setenvL e q.1 q.2) init) m
      = getenvL init m := by
  intro l
  induction l with
  | nil => intro _ init; rfl
  | cons q rest ih =>
    intro h init
    have h1 : q.1 ≠ m := h q (List.mem_cons_self q rest)
    have h2 : ∀ x ∈ rest, x.1 ≠ m := fun x hx => h x (List.mem_cons_of_mem q hx)
    rw [List.foldl_cons, ih h2]
    exact getenvL_setenvL_other init q.1 q.2 m (Ne.symm h1)

/-! ### Helper lemmas about the path composition -/

lemma rTexmfPaths_found (s : SystemState) (r : String)
    (hr : s.rHomeShare = Except.ok r) (hx1 : s.pathExists r = true)
    (hx2 : s.pathExists (completePath r "texmf") = true) :
    rTexmfPaths s =
      ⟨childPath (completePath r "texmf") "tex/latex",
       childPath (completePath r "texmf") "bibtex/bib",
       childPath (completePath r "texmf") "bibtex/bst"⟩ := by
  unfold rTexmfPaths
  rw [hr]
  simp [hx1, hx2]

lemma inputsEnvironmentVars_found (p : Platform) (s : SystemState) (r : String)
    (hr : s.rHomeShare = Except.ok r) (hx1 : s.pathExists r = true)
    (hx2 : s.pathExists (completePath r "texmf") = true) :
    inputsEnvironmentVars p s =
      [inputsEnvVar p s.env "TEXINPUTS"
         (childPath (completePath r "texmf") "tex/latex") true,
       inputsEnvVar p s.env "BIBINPUTS"
         (childPath (completePath r "texmf") "bibtex/bib") false,
       inputsEnvVar p s.env "BSTINPUTS"
         (childPath (completePath r "texmf") "bibtex/bst") false] := by
  have htex := rTexmfPaths_found s r hr hx1 hx2
  have hne : childPath (completePath r "texmf") "tex/latex" ≠ "" :=
    append_ne_empty_right _ _ (by decide)
  simp [inputsEnvironmentVars, htex, RTexmfPaths.empty, hne]

lemma inputsEnvVar_empty_ambient (p : Platform) (env : List (String × String))
    (name path : String) (fs : Bool) (h : getenvL env name = "") :
    inputsEnvVar p env name path fs =
      (name, "." ++ pathListSeparator p ++ path ++ pathListSeparator p) := by
  have hdot : replaceBackslashes "." = "." := by decide
  have h1 : ("." : String) ≠ "" := by decide
  have h3 : "." ++ pathListSeparator p ++ path ≠ "" :=
    append_ne_empty_left _ _ (append_ne_empty_left _ _ h1)
  cases p <;> cases fs <;>
    simp_all [inputsEnvVar, utf8ToSystem, addToPath, String.append_empty]

end RStudioTex

namespace RStudioTex

lemma inputsEnvVar_windows_norm (env : List (String × String))
    (name path : String) :
    inputsEnvVar Platform.windows env name path true =
      (name,
        replaceBackslashes
            (if getenvL env name = "" then "." else getenvL env name)
          ++ ";" ++ path ++ ";") := by
  have hnz : (if getenvL env name = "" then "." else getenvL env name) ≠ "" := by
    by_cases hc : getenvL env name = ""
    · simp [hc]
    · simp [hc]
  have hnz2 : replaceBackslashes
      (if getenvL env name = "" then "." else getenvL env name) ≠ "" :=
    replaceBackslashes_ne_empty _ hnz
  have hnz3 : replaceBackslashes
        (if getenvL env name = "" then "." else getenvL env name)
      ++ ";" ++ path ≠ "" :=
    append_ne_empty_left _ _ (append_ne_empty_left _ _ hnz2)
  simp [inputsEnvVar, utf8ToSystem, addToPath, pathListSeparator, hnz2, hnz3,
    String.append_empty]

lemma inputsEnvVar_windows_plain (env : List (String × String))
    (name path : String) :
    inputsEnvVar Platform.windows env name path false =
      (name,
        (if getenvL env name = "" then "." else getenvL env name)
          ++ ";" ++ path ++ ";") := by
  have hnz : (if getenvL env name = "" then "." else getenvL env name) ≠ "" := by
    by_cases hc : getenvL env name = ""
    · simp [hc]
    · simp [hc]
  have hnz3 : (if getenvL env name = "" then "." else getenvL env name)
      ++ ";" ++ path ≠ "" :=
    append_ne_empty_left _ _ (append_ne_empty_left _ _ hnz)
  simp [inputsEnvVar, utf8ToSystem, addToPath, pathListSeparator, hnz, hnz3,
    String.append_empty]

/-! ### Concrete states used by witnesses and counterexamples -/

/-- A posix-style state: the R share directory and its texmf tree exist at
`/opt/R/share`, the ambient environment is empty. -/
def optShareState : SystemState :=
  ⟨Except.ok "/opt/R/share",
   fun q => q == "/opt/R/share" || q == "/opt/R/share/texmf",
   []⟩

/-- A state whose R share directory exists but whose texmf tree does not. -/
def noTexmfState : SystemState :=
  ⟨Except.ok "/opt/R/share", fun q => q == "/opt/R/share", []⟩

/-! ### C1 -/

/-- C1: for each of the three search-path variables, when the ambient value
is empty and the toolchain root exists, the composed value is "." followed
by the appended toolchain directory followed by a trailing empty segment
(delimiter-joined). -/
theorem inputsEnvironmentVars_empty_ambient (p : Platform) (s : SystemState)
    (r : String)
    (hr : s.rHomeShare = Except.ok r)
    (hx1 : s.pathExists r = true)
    (hx2 : s.pathExists (completePath r "texmf") = true)
    (e1 : getenvL s.env "TEXINPUTS" = "")
    (e2 : getenvL s.env "BIBINPUTS" = "")
    (e3 : getenvL s.env "BSTINPUTS" = "") :
    inputsEnvironmentVars p s =
      [("TEXINPUTS", "." ++ pathListSeparator p
          ++ childPath (completePath r "texmf") "tex/latex"
          ++ pathListSeparator p),
       ("BIBINPUTS", "." ++ pathListSeparator p
          ++ childPath (completePath r "texmf") "bibtex/bib"
          ++ pathListSeparator p),
       ("BSTINPUTS", "." ++ pathListSeparator p
          ++ childPath (completePath r "texmf") "bibtex/bst"
          ++ pathListSeparator p)] := by
  rw [inputsEnvironmentVars_found p s r hr hx1 hx2,
      inputsEnvVar_empty_ambient p s.env _ _ _ e1,
      inputsEnvVar_empty_ambient p s.env _ _ _ e2,
      inputsEnvVar_empty_ambient p s.env _ _ _ e3]

/-- C1 witness: ambient TEXINPUTS unset, toolchain root at
`/opt/R/share/texmf`, non-Windows platform: the composed TEXINPUTS is
`.:/opt/R/share/texmf/tex/latex:`. -/
theorem inputsEnvironmentVars_empty_ambient_witness :
    optShareState.rHomeShare = Except.ok "/opt/R/share" ∧
    optShareState.pathExists "/opt/R/share" = true ∧
    optShareState.pathExists (completePath "/opt/R/share" "texmf") = true ∧
    getenvL optShareState.env "TEXINPUTS" = "" ∧
    inputsEnvironmentVars Platform.posix optShareState =
      [("TEXINPUTS", ".:/opt/R/share/texmf/tex/latex:"),
       ("BIBINPUTS", ".:/opt/R/share/texmf/bibtex/bib:"),
       ("BSTINPUTS", ".:/opt/R/share/texmf/bibtex/bst:")] :=
  ⟨rfl, by decide, by decide, rfl,
   (inputsEnvironmentVars_empty_ambient Platform.posix optShareState
      "/opt/R/share" rfl (by decide) (by decide) rfl rfl rfl).trans (by decide)⟩

/-! ### C2 -/

/-- C2: when the toolchain texmf root does not exist on disk, the composed
search-path variable set is empty (zero variables, never a partial one),
and a compile with a successful probe still launches the child process with
no error reported. -/
theorem missing_root_fail_soft (p : Platform) (s : SystemState) (r : String)
    (hr : s.rHomeShare = Except.ok r)
    (hx : s.pathExists (completePath r "texmf") = false) :
    inputsEnvironmentVars p s = [] ∧
    ∀ (tsp prog f out err : String), prog ≠ "" →
      ((rs_texToPdf ⟨p, s, tsp, id, prog,
          ProbeOutcome.exited 0 out err, none⟩ f).1.launched.isSome = true ∧
       (rs_texToPdf ⟨p, s, tsp, id, prog,
          ProbeOutcome.exited 0 out err, none⟩ f).1.errorOutput = []) := by
  have hempty : rTexmfPaths s = ⟨"", "", ""⟩ := by
    unfold rTexmfPaths
    rw [hr]
    cases hq : s.pathExists r
    · simp [hq]
    · simp [hq, hx]
  constructor
  · simp [inputsEnvironmentVars, hempty, RTexmfPaths.empty]
  · intro tsp prog f out err hprog
    constructor
    · simp [rs_texToPdf, hprog]
    · simp [rs_texToPdf, hprog]

/-- C2 witness: with the texmf tree missing under `/opt/R/share`, the
composed variable set is empty and a compile with a successful probe still
launches with no error output. -/
theorem missing_root_fail_soft_witness :
    noTexmfState.rHomeShare = Except.ok "/opt/R/share" ∧
    noTexmfState.pathExists (completePath "/opt/R/share" "texmf") = false ∧
    inputsEnvironmentVars Platform.posix noTexmfState = [] ∧
    (rs_texToPdf ⟨Platform.posix, noTexmfState, "/scripts", id,
        "/usr/bin/texi2dvi", ProbeOutcome.exited 0 "texi2dvi 1.135" "",
        none⟩ "doc.tex").1.launched.isSome = true :=
  ⟨rfl, by decide,
   (missing_root_fail_soft Platform.posix noTexmfState "/opt/R/share"
      rfl (by decide)).1,
   ((missing_root_fail_soft Platform.posix noTexmfState "/opt/R/share"
      rfl (by decide)).2 "/scripts" "/usr/bin/texi2dvi" "doc.tex"
      "texi2dvi 1.135" "" (by decide)).1⟩

end RStudioTex

namespace RStudioTex

/-! ### C3 -/

/-- A state in which the R share directory cannot be located at all. -/
def noRootState : SystemState :=
  ⟨Except.error "R.home lookup failed", fun _ => false, []⟩

/-- C3 counterexample: on Windows with MiKTeX detected in the probe output
but a missing toolchain root, the argument builder emits no path-injection
flags, refuting the claimed "if and only if variant is alternate and
platform is Windows". -/
theorem texi2dviShellArgs_claim_cex :
    hasSubstring "MiKTeX 2.9" "MiKTeX" = true ∧
    texi2dviShellArgs Platform.windows noRootState "MiKTeX 2.9" =
      ["--pdf", "--quiet"] ∧
    "-I" ∉ texi2dviShellArgs Platform.windows noRootState "MiKTeX 2.9" :=
  ⟨by decide, by decide, by decide⟩

/-- C3 (amended): `texi2dviShellArgs` always starts with exactly `--pdf`
and `--quiet`; it appends the two `-I` path-injection flags (tex inputs
and bst inputs, never bib inputs) precisely when the platform is Windows,
the probe output holds the MiKTeX marker, and the texmf tree was found;
otherwise (including empty probe output) it is exactly the baseline list. -/
theorem texi2dviShellArgs_spec (p : Platform) (s : SystemState) (v : String) :
    (texi2dviShellArgs p s v).take 2 = ["--pdf", "--quiet"] ∧
    texi2dviShellArgs p s v =
      (if p = Platform.windows ∧ hasSubstring v "MiKTeX" = true
           ∧ (rTexmfPaths s).empty = false
       then ["--pdf", "--quiet",
             "-I", replaceBackslashes (utf8ToSystem (rTexmfPaths s).texInputsPath),
             "-I", replaceBackslashes (utf8ToSystem (rTexmfPaths s).bstInputsPath)]
       else ["--pdf", "--quiet"]) := by
  have hchar : texi2dviShellArgs p s v =
      (if p = Platform.windows ∧ hasSubstring v "MiKTeX" = true
           ∧ (rTexmfPaths s).empty = false
       then ["--pdf", "--quiet",
             "-I", replaceBackslashes (utf8ToSystem (rTexmfPaths s).texInputsPath),
             "-I", replaceBackslashes (utf8ToSystem (rTexmfPaths s).bstInputsPath)]
       else ["--pdf", "--quiet"]) := by
    by_cases hw : p = Platform.windows
    · by_cases hm : hasSubstring v "MiKTeX" = true
      · cases he : (rTexmfPaths s).empty
        · simp [texi2dviShellArgs, hw, hm, he]
        · simp [texi2dviShellArgs, hw, hm, he]
      · simp [texi2dviShellArgs, hw, hm]
    · simp [texi2dviShellArgs, hw]
  refine ⟨?_, hchar⟩
  rw [hchar]
  split
  · rfl
  · rfl

/-! ### C4 -/

/-- A Windows-style state whose R share directory path holds backslashes
and whose ambient TEXINPUTS and BIBINPUTS hold backslashes. -/
def winBackslashState : SystemState :=
  ⟨Except.ok "C:\\R",
   fun q => q == "C:\\R" || q == "C:\\R/texmf",
   [("TEXINPUTS", "C:\\mytex"), ("BIBINPUTS", "C:\\bib")]⟩

/-- C4 counterexample: on Windows, with an ambient TEXINPUTS containing
backslashes, the composed TEXINPUTS still contains a backslash (the
appended toolchain directory is not normalized), refuting "the composed
TEXINPUTS value contains zero backslash characters". -/
theorem texinputs_normalization_cex :
    hasBackslash (getenvL winBackslashState.env "TEXINPUTS") = true ∧
    hasBackslash
      (getenvL (inputsEnvironmentVars Platform.windows winBackslashState)
        "TEXINPUTS") = true :=
  ⟨by decide, by decide⟩

/-- C4 (amended): on Windows, backslash normalization is applied to the
ambient value of exactly one variable, TEXINPUTS: the ambient portion of
the composed TEXINPUTS is backslash-free (so the whole composed value is
backslash-free whenever the appended toolchain directory is), while the
ambient portions of BIBINPUTS and BSTINPUTS are used unmodified. -/
theorem inputsEnvironmentVars_windows_normalization (s : SystemState)
    (r : String)
    (hr : s.rHomeShare = Except.ok r)
    (hx1 : s.pathExists r = true)
    (hx2 : s.pathExists (completePath r "texmf") = true) :
    hasBackslash (replaceBackslashes
      (if getenvL s.env "TEXINPUTS" = "" then "."
       else getenvL s.env "TEXINPUTS")) = false ∧
    getenvL (inputsEnvironmentVars Platform.windows s) "TEXINPUTS" =
      replaceBackslashes
          (if getenvL s.env "TEXINPUTS" = "" then "."
           else getenvL s.env "TEXINPUTS")
        ++ ";" ++ childPath (completePath r "texmf") "tex/latex" ++ ";" ∧
    getenvL (inputsEnvironmentVars Platform.windows s) "BIBINPUTS" =
      (if getenvL s.env "BIBINPUTS" = "" then "."
       else getenvL s.env "BIBINPUTS")
        ++ ";" ++ childPath (completePath r "texmf") "bibtex/bib" ++ ";" ∧
    getenvL (inputsEnvironmentVars Platform.windows s) "BSTINPUTS" =
      (if getenvL s.env "BSTINPUTS" = "" then "."
       else getenvL s.env "BSTINPUTS")
        ++ ";" ++ childPath (completePath r "texmf") "bibtex/bst" ++ ";" ∧
    (hasBackslash (childPath (completePath r "texmf") "tex/latex") = false →
      hasBackslash
        (getenvL (inputsEnvironmentVars Platform.windows s) "TEXINPUTS")
        = false) := by
  have hlist := inputsEnvironmentVars_found Platform.windows s r hr hx1 hx2
  rw [hlist, inputsEnvVar_windows_norm, inputsEnvVar_windows_plain,
      inputsEnvVar_windows_plain]
  have hsemi : hasBackslash ";" = false := by decide
  refine ⟨hasBackslash_replaceBackslashes _, ?_, ?_, ?_, ?_⟩
  · simp [getenvL]
  · simp [getenvL]
  · simp [getenvL]
  · intro hpath
    simp [getenvL, hasBackslash_append, hasBackslash_replaceBackslashes,
      hsemi, hpath]

/-- A Windows-style state with a backslash-free toolchain root but
backslashes in the ambient TEXINPUTS and BIBINPUTS values. -/
def winCleanRootState : SystemState :=
  ⟨Except.ok "C:/R",
   fun q => q == "C:/R" || q == "C:/R/texmf",
   [("TEXINPUTS", "C:\\mytex"), ("BIBINPUTS", "C:\\bib")]⟩

/-- C4 witness: concrete Windows state with backslashes in both ambient
TEXINPUTS and BIBINPUTS and a clean toolchain root: composed TEXINPUTS is
fully normalized while composed BIBINPUTS keeps its ambient backslashes. -/
theorem inputsEnvironmentVars_windows_normalization_witness :
    winCleanRootState.rHomeShare = Except.ok "C:/R" ∧
    getenvL (inputsEnvironmentVars Platform.windows winCleanRootState)
      "TEXINPUTS" = "C:/mytex;C:/R/texmf/tex/latex;" ∧
    hasBackslash
      (getenvL (inputsEnvironmentVars Platform.windows winCleanRootState)
        "TEXINPUTS") = false ∧
    getenvL (inputsEnvironmentVars Platform.windows winCleanRootState)
      "BIBINPUTS" = "C:\\bib;C:/R/texmf/bibtex/bib;" :=
  ⟨rfl,
   ((inputsEnvironmentVars_windows_normalization winCleanRootState "C:/R"
      rfl (by decide) (by decide)).2.1).trans (by decide),
   (inputsEnvironmentVars_windows_normalization winCleanRootState "C:/R"
      rfl (by decide) (by decide)).2.2.2.2 (by decide),
   ((inputsEnvironmentVars_windows_normalization winCleanRootState "C:/R"
      rfl (by decide) (by decide)).2.2.1).trans (by decide)⟩

end RStudioTex

namespace RStudioTex

/-! ### C5 -/

/-- C5: the invocation plan built by `executeTexToPdf` appends the target
file's filename as the final argument, sets the working directory to the
target's containing directory, and merges the ambient environment snapshot
with the overlay so that overlay entries win on name collision: the last
overlay binding of a name determines its merged value, and names absent
from the overlay keep their ambient value. -/
theorem executeTexToPdf_spec (amb : List (String × String)) (prog : String)
    (l1 l2 : List (String × String)) (nm v : String)
    (args : List String) (file : String)
    (hlast : ∀ q ∈ l2, q.1 ≠ nm) :
    ((executeTexToPdf amb prog (l1 ++ (nm, v) :: l2) args file).args
        = args ++ [filenameOf file]) ∧
    ((executeTexToPdf amb prog (l1 ++ (nm, v) :: l2) args file).workingDir
        = parentOf file) ∧
    (getenvL (executeTexToPdf amb prog (l1 ++ (nm, v) :: l2) args file).environment
        nm = v) ∧
    (∀ m, (∀ q ∈ l1 ++ (nm, v) :: l2, q.1 ≠ m) →
      getenvL (executeTexToPdf amb prog (l1 ++ (nm, v) :: l2) args file).environment
          m = getenvL amb m) := by
  refine ⟨rfl, rfl, ?_, ?_⟩
  · show getenvL
        ((l1 ++ (nm, v) :: l2).foldl (fun e q => setenvL e q.1 q.2) amb) nm = v
    rw [List.foldl_append, List.foldl_cons,
        getenvL_foldl_setenvL_of_not_mem nm l2 hlast]
    exact getenvL_setenvL_same _ nm v
  · intro m hm
    exact getenvL_foldl_setenvL_of_not_mem m _ hm amb

/-- C5 witness: concrete merge where the overlay overrides the ambient
TEXINPUTS, the target filename is appended last, and the working directory
is the target's parent; PATH is not in the overlay and keeps its ambient
value. -/
theorem executeTexToPdf_spec_witness :
    (∀ q ∈ [("PDFLATEX", "p")], (q : String × String).1 ≠ "TEXINPUTS") ∧
    (executeTexToPdf [("PATH", "/usr/bin"), ("TEXINPUTS", "old")]
        "/usr/bin/texi2dvi" ([] ++ ("TEXINPUTS", "new") :: [("PDFLATEX", "p")])
        ["--pdf", "--quiet"] "/home/u/doc.tex").args
      = ["--pdf", "--quiet"] ++ [filenameOf "/home/u/doc.tex"] ∧
    getenvL (executeTexToPdf [("PATH", "/usr/bin"), ("TEXINPUTS", "old")]
        "/usr/bin/texi2dvi" ([] ++ ("TEXINPUTS", "new") :: [("PDFLATEX", "p")])
        ["--pdf", "--quiet"] "/home/u/doc.tex").environment "TEXINPUTS" = "new" ∧
    getenvL (executeTexToPdf [("PATH", "/usr/bin"), ("TEXINPUTS", "old")]
        "/usr/bin/texi2dvi" ([] ++ ("TEXINPUTS", "new") :: [("PDFLATEX", "p")])
        ["--pdf", "--quiet"] "/home/u/doc.tex").environment "PATH"
      = getenvL [("PATH", "/usr/bin"), ("TEXINPUTS", "old")] "PATH" :=
  ⟨by decide,
   (executeTexToPdf_spec [("PATH", "/usr/bin"), ("TEXINPUTS", "old")]
      "/usr/bin/texi2dvi" [] [("PDFLATEX", "p")] "TEXINPUTS" "new"
      ["--pdf", "--quiet"] "/home/u/doc.tex" (by decide)).1,
   (executeTexToPdf_spec [("PATH", "/usr/bin"), ("TEXINPUTS", "old")]
      "/usr/bin/texi2dvi" [] [("PDFLATEX", "p")] "TEXINPUTS" "new"
      ["--pdf", "--quiet"] "/home/u/doc.tex" (by decide)).2.2.1,
   (executeTexToPdf_spec [("PATH", "/usr/bin"), ("TEXINPUTS", "old")]
      "/usr/bin/texi2dvi" [] [("PDFLATEX", "p")] "TEXINPUTS" "new"
      ["--pdf", "--quiet"] "/home/u/doc.tex" (by decide)).2.2.2 "PATH"
      (by decide)⟩

/-! ### C6 -/

/-- C6: if the version probe fails to spawn or exits non-zero, the
orchestrator short-circuits: the environment composer and argument builder
are never invoked, the compile process is never launched, and the single
reported error is the spawn error summary resp. the captured stderr. -/
theorem rs_texToPdf_probe_short_circuit (w : World) (f : String)
    (hfind : w.findProgramResult ≠ "") :
    (∀ msg, w.probe = ProbeOutcome.spawnError msg →
      rs_texToPdf w f = (⟨[msg ++ "\n"], none, none, none⟩, SEXPVal.rNilValue)) ∧
    (∀ c out err, w.probe = ProbeOutcome.exited c out err → c ≠ 0 →
      rs_texToPdf w f = (⟨[err], none, none, none⟩, SEXPVal.rNilValue)) := by
  constructor
  · intro msg hp
    simp [rs_texToPdf, hfind, hp]
  · intro c out err hp hc
    simp [rs_texToPdf, hfind, hp, hc]

/-- A world whose probe fails to spawn. -/
def spawnFailWorld : World :=
  ⟨Platform.posix, noRootState, "/scripts", id, "/usr/bin/texi2dvi",
   ProbeOutcome.spawnError "texi2dvi: spawn failed", none⟩

/-- C6 witness: a spawn failure of the probe yields exactly the error line,
with nothing composed and nothing launched. -/
theorem rs_texToPdf_probe_short_circuit_witness :
    spawnFailWorld.findProgramResult ≠ "" ∧
    rs_texToPdf spawnFailWorld "doc.tex" =
      (⟨["texi2dvi: spawn failed" ++ "\n"], none, none, none⟩,
       SEXPVal.rNilValue) :=
  ⟨by decide,
   (rs_texToPdf_probe_short_circuit spawnFailWorld "doc.tex" (by decide)).1
     "texi2dvi: spawn failed" rfl⟩

/-! ### C7 -/

/-- C7: every invocation plan built by `executeTexToPdf` requests child
termination, so (per the spec's ProcessRunner contract, modelled by
`survivingDescendantsAfterStop`) stopping the run leaves zero surviving
descendant processes. -/
theorem executeTexToPdf_terminates_descendants
    (amb : List (String × String)) (prog : String)
    (envVars : List (String × String)) (args : List String) (file : String)
    (liveDescendants : Nat) :
    survivingDescendantsAfterStop (executeTexToPdf amb prog envVars args file)
      liveDescendants = 0 := rfl

/-! ### C8 -/

/-- C8: `rs_texToPdf` always returns `R_NilValue`, and every terminal
failure kind (executable not found, probe spawn failure, probe non-zero
exit, launch failure) is converted to exactly one written error line,
while a fully successful invocation writes none. -/
theorem rs_texToPdf_error_policy (w : World) (f : String) :
    (rs_texToPdf w f).2 = SEXPVal.rNilValue ∧
    (w.findProgramResult = "" →
      (rs_texToPdf w f).1.errorOutput = ["can't find texi2dvi\n"]) ∧
    (∀ msg, w.findProgramResult ≠ "" → w.probe = ProbeOutcome.spawnError msg →
      (rs_texToPdf w f).1.errorOutput = [msg ++ "\n"]) ∧
    (∀ c out err, w.findProgramResult ≠ "" →
      w.probe = ProbeOutcome.exited c out err → c ≠ 0 →
      (rs_texToPdf w f).1.errorOutput = [err]) ∧
    (∀ out err msg, w.findProgramResult ≠ "" →
      w.probe = ProbeOutcome.exited 0 out err → w.launchError = some msg →
      (rs_texToPdf w f).1.errorOutput = [msg ++ "\n"]) ∧
    (∀ out err, w.findProgramResult ≠ "" →
      w.probe = ProbeOutcome.exited 0 out err → w.launchError = none →
      (rs_texToPdf w f).1.errorOutput = []) := by
  refine ⟨?_, ?_, ?_, ?_, ?_, ?_⟩
  · by_cases h : w.findProgramResult = ""
    · simp [rs_texToPdf, h]
    · cases hp : w.probe with
      | spawnError msg => simp [rs_texToPdf, h, hp]
      | exited c out err =>
        by_cases hc : c = 0
        · cases hl : w.launchError
          · simp [rs_texToPdf, h, hp, hc, hl]
          · simp [rs_texToPdf, h, hp, hc, hl]
        · simp [rs_texToPdf, h, hp, hc]
  · intro h
    simp [rs_texToPdf, h]
  · intro msg h hp
    simp [rs_texToPdf, h, hp]
  · intro c out err h hp hc
    simp [rs_texToPdf, h, hp, hc]
  · intro out err msg h hp hl
    simp [rs_texToPdf, h, hp, hl]
  · intro out err h hp hl
    simp [rs_texToPdf, h, hp, hl]

/-- A world whose probe exits with status 1 and an error stream. -/
def probeExitFailWorld : World :=
  ⟨Platform.posix, noTexmfState, "/scripts", id, "/usr/bin/texi2dvi",
   ProbeOutcome.exited 1 "" "texi2dvi: fatal error\n", none⟩

/-- C8 witness: a probe that exits non-zero yields `R_NilValue` and exactly
the captured stderr as the single error line. -/
theorem rs_texToPdf_error_policy_witness :
    probeExitFailWorld.findProgramResult ≠ "" ∧
    (rs_texToPdf probeExitFailWorld "doc.tex").2 = SEXPVal.rNilValue ∧
    (rs_texToPdf probeExitFailWorld "doc.tex").1.errorOutput
      = ["texi2dvi: fatal error\n"] :=
  ⟨by decide,
   (rs_texToPdf_error_policy probeExitFailWorld "doc.tex").1,
   (rs_texToPdf_error_policy probeExitFailWorld "doc.tex").2.2.2.1
     1 "" "texi2dvi: fatal error\n" (by decide) rfl (by decide)⟩

/-! ### C9 -/

/-- C9: the composed environment overlay is independent of the probe
output: `texi2dviEnvironmentVars` yields identical results for any two
probe output strings, given the same platform, system state and scripts
path. -/
theorem texi2dviEnvironmentVars_probe_independent (p : Platform)
    (s : SystemState) (texScriptsPath : String) (v1 v2 : String) :
    texi2dviEnvironmentVars p s texScriptsPath v1
      = texi2dviEnvironmentVars p s texScriptsPath v2 := rfl

/-! ### C10 -/

/-- C10: every composed overlay holds a PDFLATEX entry pointing at the
rstudio-pdflatex wrapper (`.cmd` on Windows, `.sh` otherwise); on
non-Windows platforms it also holds TEXINDY=false and LC_COLLATE=C; and
the overlay is never empty, whatever the system state. -/
theorem texi2dviEnvironmentVars_overlay_invariants (p : Platform)
    (s : SystemState) (texScriptsPath : String) (texVersionInfo : String) :
    ("PDFLATEX",
        completePath texScriptsPath
          ("rstudio-pdflatex" ++
            (if p = Platform.windows then ".cmd" else ".sh")))
      ∈ texi2dviEnvironmentVars p s texScriptsPath texVersionInfo ∧
    (p ≠ Platform.windows →
      ("TEXINDY", "false")
          ∈ texi2dviEnvironmentVars p s texScriptsPath texVersionInfo ∧
      ("LC_COLLATE", "C")
          ∈ texi2dviEnvironmentVars p s texScriptsPath texVersionInfo) ∧
    texi2dviEnvironmentVars p s texScriptsPath texVersionInfo ≠ [] := by
  cases p with
  | windows =>
    refine ⟨?_, ?_, ?_⟩
    · simp [texi2dviEnvironmentVars, pdfLatexEnvVar, utf8ToSystem]
    · intro h
      exact absurd rfl h
    · simp [texi2dviEnvironmentVars]
  | posix =>
    refine ⟨?_, ?_, ?_⟩
    · simp [texi2dviEnvironmentVars, pdfLatexEnvVar, utf8ToSystem]
    · intro _
      constructor
      · simp [texi2dviEnvironmentVars]
      · simp [texi2dviEnvironmentVars]
    · simp [texi2dviEnvironmentVars]

/-- C10 witness: on posix, even with a missing toolchain root, the overlay
holds PDFLATEX, TEXINDY and LC_COLLATE and is non-empty. -/
theorem texi2dviEnvironmentVars_overlay_invariants_witness :
    Platform.posix ≠ Platform.windows ∧
    ("TEXINDY", "false")
      ∈ texi2dviEnvironmentVars Platform.posix noRootState "/scripts" "" ∧
    ("PDFLATEX", completePath "/scripts"
        ("rstudio-pdflatex" ++
          (if Platform.posix = Platform.windows then ".cmd" else ".sh")))
      ∈ texi2dviEnvironmentVars Platform.posix noRootState "/scripts" "" :=
  ⟨by decide,
   ((texi2dviEnvironmentVars_overlay_invariants Platform.posix noRootState
      "/scripts" "").2.1 (by decide)).1,
   (texi2dviEnvironmentVars_overlay_invariants Platform.posix noRootState
      "/scripts" "").1⟩

end RStudioTex
